import Mathlib

set_option maxHeartbeats 1000000
set_option maxRecDepth 4000

/-
Shallow embedding of the DAMX daemon (Div-Acer-Manager-Max repository,
src/DAMM-Daemon/DAMX-Daemon.py and src/DAMM-Daemon/PowerSourceDetection.py).

Modelling conventions:
- The filesystem of virtual control files is a state FS: a contents map
  (some = file exists and is readable with that content, none = absent or
  the read raises) plus a writability predicate (false = the write raises,
  which the code catches and turns into a failure result).
- Every manager operation returns its result together with the new FS and a
  trace of attempted file operations (FileOp), so that claims of the form
  "no read/write is attempted" are statements about the trace.
- External process invocations (rmmod/modprobe/systemctl) are modelled by an
  Env record of their outcomes.
- Request parameters are modelled with the per-command types the code reads
  out of the JSON object; an omitted key equals the default the code passes
  to params.get.  Python None-valued response keys are modelled as none.
-/

def VERSION : String := "0.3.8"

def predatorPath : String :=
  "/sys/module/linuwu_sense/drivers/platform:acer-wmi/acer-wmi/predator_sense"

def nitroPath : String :=
  "/sys/module/linuwu_sense/drivers/platform:acer-wmi/acer-wmi/nitro_sense"

def kbBase : String :=
  "/sys/module/linuwu_sense/drivers/platform:acer-wmi/acer-wmi/four_zoned_kb"

def platformProfilePath : String := "/sys/firmware/acpi/platform_profile"

def platformProfileChoicesPath : String :=
  "/sys/firmware/acpi/platform_profile_choices"

def kbPerZonePath : String :=
  "/sys/module/linuwu_sense/drivers/platform:acer-wmi/acer-wmi/four_zoned_kb/per_zone_mode"

def kbFourZonePath : String :=
  "/sys/module/linuwu_sense/drivers/platform:acer-wmi/acer-wmi/four_zoned_kb/four_zone_mode"

inductive LaptopType where
  | UNKNOWN
  | PREDATOR
  | NITRO
deriving DecidableEq, Repr

def ltName : LaptopType → String
  | .UNKNOWN => "UNKNOWN"
  | .PREDATOR => "PREDATOR"
  | .NITRO => "NITRO"

/-- os.path.join for the shapes used by the daemon (second component
relative unless it starts with a slash). -/
def pyPathJoin (a b : String) : String :=
  if b.data.head? = some '/' then b
  else if a = "" then b
  else if a.data.getLast? = some '/' then a ++ b
  else a ++ "/" ++ b

/-- Whitespace stripped by Python str.strip / int() argument stripping
(ASCII fragment). -/
def isPySpace (c : Char) : Bool :=
  c == ' ' || c == '\t' || c == '\n' || c == '\r' || c == '\x0b' || c == '\x0c'

def hexDigitValue (c : Char) : Option Nat :=
  if 48 ≤ c.toNat ∧ c.toNat ≤ 57 then some (c.toNat - 48)
  else if 97 ≤ c.toNat ∧ c.toNat ≤ 102 then some (c.toNat - 97 + 10)
  else if 65 ≤ c.toNat ∧ c.toNat ≤ 70 then some (c.toNat - 65 + 10)
  else none

/-- Digit run of the Python integer grammar after the first digit: hex
digits with single underscores allowed between digits. -/
def hexTail (acc : Nat) : List Char → Option Nat
  | [] => some acc
  | c :: cs =>
    if c = '_' then
      match cs with
      | [] => none
      | c2 :: cs2 =>
        match hexDigitValue c2 with
        | some v => hexTail (16 * acc + v) cs2
        | none => none
    else
      match hexDigitValue c with
      | some v => hexTail (16 * acc + v) cs
      | none => none

/-- A nonempty digit-led run of hex digits with underscore separators. -/
def hexDigitsRun : List Char → Option Nat
  | [] => none
  | c :: cs =>
    match hexDigitValue c with
    | some v => hexTail v cs
    | none => none

/-- Python whitespace stripping of both ends. -/
def pyStrip (l : List Char) : List Char :=
  ((l.dropWhile isPySpace).reverse.dropWhile isPySpace).reverse

/-- Python str.strip() on a string. -/
def pyStripStr (s : String) : String :=
  String.mk (pyStrip s.data)

/-- Leading sign of the Python integer grammar. -/
def stripSign : List Char → Int × List Char
  | [] => (1, [])
  | c :: cs =>
    if c = '+' then (1, cs)
    else if c = '-' then (-1, cs)
    else (1, c :: cs)

/-- One underscore may directly follow the 0x prefix. -/
def dropOneUnderscore : List Char → List Char
  | [] => []
  | c :: cs => if c = '_' then cs else c :: cs

/-- Optional 0x or 0X prefix of the base-16 Python integer grammar. -/
def stripHexPrefix : List Char → List Char
  | c0 :: c1 :: r =>
    if c0 = '0' ∧ (c1 = 'x' ∨ c1 = 'X') then dropOneUnderscore r
    else c0 :: c1 :: r
  | l => l

/-- The code points CPython str.isspace accepts (Py_UNICODE_ISSPACE,
Unicode 15 tables of Python 3.11): ASCII 9-13, 28-31 and 32, NEL, NBSP,
and the Zs/Zl/Zp characters. -/
def pySpaceCodes : List Nat :=
  [9, 10, 11, 12, 13, 28, 29, 30, 31, 32, 133, 160, 5760,
   8192, 8193, 8194, 8195, 8196, 8197, 8198, 8199, 8200, 8201, 8202,
   8232, 8233, 8239, 8287, 12288]

def pyUnicodeIsSpace (c : Char) : Bool :=
  pySpaceCodes.contains c.toNat

/-- Zero-digit code points of every non-ASCII Unicode decimal-digit run
(each run is ten consecutive code points); from the unicodedata tables of
Python 3.11. -/
def decimalZeroCodes : List Nat :=
  [1632, 1776, 1984, 2406, 2534, 2662, 2790, 2918, 3046, 3174, 3302, 3430,
   3558, 3664, 3792, 3872, 4160, 4240, 6112, 6160, 6470, 6608, 6784, 6800,
   6992, 7088, 7232, 7248, 42528, 43216, 43264, 43472, 43504, 43600, 44016,
   65296, 66720, 68912, 69734, 69872, 69942, 70096, 70384, 70736, 70864,
   71248, 71360, 71472, 71904, 72016, 72784, 73040, 73120, 92768, 92864,
   93008, 120782, 120792, 120802, 120812, 120822, 123200, 123632, 125264,
   130032]

/-- CPython Py_UNICODE_TODECIMAL for non-ASCII characters: the decimal
value when the character lies in a Unicode decimal-digit run. -/
def pyToDecimal (c : Char) : Option Nat :=
  match decimalZeroCodes.find? (fun z => z ≤ c.toNat && c.toNat ≤ z + 9) with
  | some z => some (c.toNat - z)
  | none => none

/-- One character of CPython _PyUnicode_TransformDecimalAndSpaceToASCII:
characters below 127 pass through unchanged; a non-ASCII Unicode
whitespace character becomes a space; a non-ASCII Unicode decimal digit
becomes the corresponding ASCII digit; anything else is left in place
(CPython writes a placeholder there, and either way the subsequent parse
rejects it). -/
def pyTransformChar (c : Char) : Char :=
  if c.toNat < 127 then c
  else if pyUnicodeIsSpace c = true then ' '
  else
    match pyToDecimal c with
    | some d => Char.ofNat (48 + d)
    | none => c

/-- Python int(s, 16): first the CPython transform of non-ASCII whitespace
and decimal digits to ASCII, then surrounding ASCII whitespace, optional
sign, optional 0x/0X prefix (an underscore may directly follow the
prefix), then hex digits with single underscores between digits; a bare
prefix with no digits is invalid (hexDigitsRun of the empty list is
none). -/
def pyIntBase16 (s : String) : Option Int :=
  match hexDigitsRun (stripHexPrefix
      (stripSign (pyStrip (s.data.map pyTransformChar))).2) with
  | some v =>
    some ((stripSign (pyStrip (s.data.map pyTransformChar))).1 * (v : Int))
  | none => none

/-- The per-zone validation the code performs on one zone string:
int(zone, 16) succeeds and len(zone) == 6. -/
def validZoneHex (z : String) : Bool :=
  (pyIntBase16 z).isSome && z.length == 6

def isHexDigitChar (c : Char) : Bool :=
  (48 ≤ c.toNat && c.toNat ≤ 57) || (97 ≤ c.toNat && c.toNat ≤ 102)
    || (65 ≤ c.toNat && c.toNat ≤ 70)

/-- Statement-side predicate for the claim wording: the string is exactly
six hexadecimal digits. -/
def isSixHexDigits (s : String) : Bool :=
  s.length == 6 && s.data.all isHexDigitChar

/-- Whitespace-run splitting of a character list, dropping empty words; the
accumulator holds the current word reversed. -/
def wordsByAux (p : Char → Bool) : List Char → List Char → List (List Char)
  | [], acc => if acc = [] then [] else [acc.reverse]
  | c :: cs, acc =>
    if p c then
      if acc = [] then wordsByAux p cs []
      else acc.reverse :: wordsByAux p cs []
    else wordsByAux p cs (c :: acc)

/-- Python str.split() with no argument: split on whitespace runs, dropping
empty pieces. -/
def splitWhitespace (s : String) : List String :=
  (wordsByAux isPySpace s.data []).map String.mk

/-- Split a character list at the first occurrence of a separator; without
the separator the second component is empty. -/
def splitOnceChar (sep : Char) : List Char → List Char × List Char
  | [] => ([], [])
  | c :: cs =>
    if c = sep then ([], cs)
    else
      let r := splitOnceChar sep cs
      (c :: r.1, r.2)

/-- Python s.split(",", 1): split at the first comma only.  The code only
uses it when a comma is present. -/
def pySplitComma1 (s : String) : String × String :=
  let r := splitOnceChar ',' s.data
  (String.mk r.1, String.mk r.2)

/-- JSON-like values appearing in responses. -/
inductive JVal where
  | str (s : String)
  | int (n : Int)
  | bool (b : Bool)
  | null
  | arr (xs : List JVal)
  | obj (kvs : List (String × JVal))

/-- Response envelope; a none field models an absent/None key. -/
structure Response where
  success : Bool
  data : Option JVal := none
  error : Option String := none
  message : Option String := none

/-- Request parameters with the per-command types the code reads; defaults
are the defaults passed to params.get in process_command. -/
structure Params where
  profile : String := ""
  enabled : Bool := false
  cpu : Int := 0
  gpu : Int := 0
  level : Int := 0
  zone1 : String := "000000"
  zone2 : String := "000000"
  zone3 : String := "000000"
  zone4 : String := "000000"
  brightness : Int := 100
  mode : Int := 0
  speed : Int := 0
  direction : Int := 1
  red : Int := 0
  green : Int := 0
  blue : Int := 0

/-- Outcomes of the external rmmod/modprobe/systemctl sequences invoked by
the manual supervisor actions. -/
structure Env where
  forceNitroOk : Bool := false
  forcePredatorOk : Bool := false
  forceEnableAllOk : Bool := false
  restartDaemonOk : Bool := false
  restartDriversOk : Bool := false

/-- An attempted virtual-file operation. -/
inductive FileOp where
  | read (path : String)
  | write (path : String) (value : String)
deriving DecidableEq, Repr

def FileOp.isWriteOp : FileOp → Bool
  | .write _ _ => true
  | .read _ => false

def writesOf (ops : List FileOp) : List FileOp :=
  ops.filter FileOp.isWriteOp

/-- Virtual filesystem state. -/
structure FS where
  contents : String → Option String
  writable : String → Bool

/-- _read_file: read, strip; an absent/unreadable file yields the empty
string (the exception is caught). -/
def FS.readStr (fs : FS) (p : String) : String :=
  match fs.contents p with
  | some s => pyStripStr s
  | none => ""

/-- _write_file: returns whether the write succeeded; on failure the
filesystem is unchanged (the exception is caught). -/
def FS.write (fs : FS) (p v : String) : Bool × FS :=
  if fs.writable p then
    (true, { contents := fun q => if q = p then some v else fs.contents q,
             writable := fs.writable })
  else (false, fs)

/-- The state of a DAMXManager instance after startup detection. -/
structure DAMXManager where
  laptopType : LaptopType
  basePath : String
  hasFourZoneKb : Bool
  availableFeatures : List String

/-- DAMXManager.get_thermal_profile -/
def get_thermal_profile (m : DAMXManager) (fs : FS) : String × FS × List FileOp :=
  if "thermal_profile" ∈ m.availableFeatures then
    (fs.readStr platformProfilePath, fs, [.read platformProfilePath])
  else ("", fs, [])

/-- DAMXManager.get_thermal_profile_choices -/
def get_thermal_profile_choices (m : DAMXManager) (fs : FS) :
    List String × FS × List FileOp :=
  if "thermal_profile" ∈ m.availableFeatures then
    (splitWhitespace (fs.readStr platformProfileChoicesPath), fs,
     [.read platformProfileChoicesPath])
  else ([], fs, [])

/-- DAMXManager.set_thermal_profile: gate, then membership in the
driver-reported choices, then a single write. -/
def set_thermal_profile (m : DAMXManager) (fs : FS) (profile : String) :
    Bool × FS × List FileOp :=
  if "thermal_profile" ∈ m.availableFeatures then
    let r := get_thermal_profile_choices m fs
    if profile ∈ r.1 then
      let w := fs.write platformProfilePath profile
      (w.1, w.2, r.2.2 ++ [.write platformProfilePath profile])
    else (false, fs, r.2.2)
  else (false, fs, [])

/-- DAMXManager.get_backlight_timeout -/
def get_backlight_timeout (m : DAMXManager) (fs : FS) : String × FS × List FileOp :=
  if "backlight_timeout" ∈ m.availableFeatures then
    let p := pyPathJoin m.basePath "backlight_timeout"
    (fs.readStr p, fs, [.read p])
  else ("", fs, [])

/-- DAMXManager.set_backlight_timeout -/
def set_backlight_timeout (m : DAMXManager) (fs : FS) (enabled : Bool) :
    Bool × FS × List FileOp :=
  if "backlight_timeout" ∈ m.availableFeatures then
    let p := pyPathJoin m.basePath "backlight_timeout"
    let v := if enabled then "1" else "0"
    let w := fs.write p v
    (w.1, w.2, [.write p v])
  else (false, fs, [])

/-- DAMXManager.get_battery_calibration -/
def get_battery_calibration (m : DAMXManager) (fs : FS) : String × FS × List FileOp :=
  if "battery_calibration" ∈ m.availableFeatures then
    let p := pyPathJoin m.basePath "battery_calibration"
    (fs.readStr p, fs, [.read p])
  else ("", fs, [])

/-- DAMXManager.set_battery_calibration -/
def set_battery_calibration (m : DAMXManager) (fs : FS) (enabled : Bool) :
    Bool × FS × List FileOp :=
  if "battery_calibration" ∈ m.availableFeatures then
    let p := pyPathJoin m.basePath "battery_calibration"
    let v := if enabled then "1" else "0"
    let w := fs.write p v
    (w.1, w.2, [.write p v])
  else (false, fs, [])

/-- DAMXManager.get_battery_limiter -/
def get_battery_limiter (m : DAMXManager) (fs : FS) : String × FS × List FileOp :=
  if "battery_limiter" ∈ m.availableFeatures then
    let p := pyPathJoin m.basePath "battery_limiter"
    (fs.readStr p, fs, [.read p])
  else ("", fs, [])

/-- DAMXManager.set_battery_limiter -/
def set_battery_limiter (m : DAMXManager) (fs : FS) (enabled : Bool) :
    Bool × FS × List FileOp :=
  if "battery_limiter" ∈ m.availableFeatures then
    let p := pyPathJoin m.basePath "battery_limiter"
    let v := if enabled then "1" else "0"
    let w := fs.write p v
    (w.1, w.2, [.write p v])
  else (false, fs, [])

/-- DAMXManager.get_boot_animation_sound -/
def get_boot_animation_sound (m : DAMXManager) (fs : FS) : String × FS × List FileOp :=
  if "boot_animation_sound" ∈ m.availableFeatures then
    let p := pyPathJoin m.basePath "boot_animation_sound"
    (fs.readStr p, fs, [.read p])
  else ("", fs, [])

/-- DAMXManager.set_boot_animation_sound -/
def set_boot_animation_sound (m : DAMXManager) (fs : FS) (enabled : Bool) :
    Bool × FS × List FileOp :=
  if "boot_animation_sound" ∈ m.availableFeatures then
    let p := pyPathJoin m.basePath "boot_animation_sound"
    let v := if enabled then "1" else "0"
    let w := fs.write p v
    (w.1, w.2, [.write p v])
  else (false, fs, [])

/-- DAMXManager.get_fan_speed: absent feature yields the empty pair; a
failed read or a content without a comma yields the fallback pair. -/
def get_fan_speed (m : DAMXManager) (fs : FS) :
    (String × String) × FS × List FileOp :=
  if "fan_speed" ∈ m.availableFeatures then
    let p := pyPathJoin m.basePath "fan_speed"
    match fs.contents p with
    | none => (("0", "0"), fs, [.read p])
    | some raw =>
      let speeds := pyStripStr raw
      if speeds.data.contains ',' then
        let cg := pySplitComma1 speeds
        ((pyStripStr cg.1, pyStripStr cg.2), fs, [.read p])
      else (("0", "0"), fs, [.read p])
  else (("", ""), fs, [])

/-- DAMXManager.set_fan_speed: gate, validate both components in [0,100],
then a single write of "cpu,gpu". -/
def set_fan_speed (m : DAMXManager) (fs : FS) (cpu gpu : Int) :
    Bool × FS × List FileOp :=
  if "fan_speed" ∈ m.availableFeatures then
    if 0 ≤ cpu ∧ cpu ≤ 100 ∧ 0 ≤ gpu ∧ gpu ≤ 100 then
      let p := pyPathJoin m.basePath "fan_speed"
      let v := toString cpu ++ "," ++ toString gpu
      let w := fs.write p v
      (w.1, w.2, [.write p v])
    else (false, fs, [])
  else (false, fs, [])

/-- DAMXManager.get_lcd_override -/
def get_lcd_override (m : DAMXManager) (fs : FS) : String × FS × List FileOp :=
  if "lcd_override" ∈ m.availableFeatures then
    let p := pyPathJoin m.basePath "lcd_override"
    (fs.readStr p, fs, [.read p])
  else ("", fs, [])

/-- DAMXManager.set_lcd_override -/
def set_lcd_override (m : DAMXManager) (fs : FS) (enabled : Bool) :
    Bool × FS × List FileOp :=
  if "lcd_override" ∈ m.availableFeatures then
    let p := pyPathJoin m.basePath "lcd_override"
    let v := if enabled then "1" else "0"
    let w := fs.write p v
    (w.1, w.2, [.write p v])
  else (false, fs, [])

/-- DAMXManager.get_usb_charging -/
def get_usb_charging (m : DAMXManager) (fs : FS) : String × FS × List FileOp :=
  if "usb_charging" ∈ m.availableFeatures then
    let p := pyPathJoin m.basePath "usb_charging"
    (fs.readStr p, fs, [.read p])
  else ("", fs, [])

/-- DAMXManager.set_usb_charging: level must be one of 0, 10, 20, 30. -/
def set_usb_charging (m : DAMXManager) (fs : FS) (level : Int) :
    Bool × FS × List FileOp :=
  if "usb_charging" ∈ m.availableFeatures then
    if level = 0 ∨ level = 10 ∨ level = 20 ∨ level = 30 then
      let p := pyPathJoin m.basePath "usb_charging"
      let v := toString level
      let w := fs.write p v
      (w.1, w.2, [.write p v])
    else (false, fs, [])
  else (false, fs, [])

/-- DAMXManager.get_per_zone_mode -/
def get_per_zone_mode (m : DAMXManager) (fs : FS) : String × FS × List FileOp :=
  if "per_zone_mode" ∈ m.availableFeatures then
    (fs.readStr kbPerZonePath, fs, [.read kbPerZonePath])
  else ("", fs, [])

/-- DAMXManager.set_per_zone_mode: gate, validate each of the four zone
strings (int(zone, 16) succeeds and length 6, in order) and brightness in
[0,100], then one combined write; every failure writes nothing. -/
def set_per_zone_mode (m : DAMXManager) (fs : FS)
    (zone1 zone2 zone3 zone4 : String) (brightness : Int) :
    Bool × FS × List FileOp :=
  if "per_zone_mode" ∈ m.availableFeatures then
    if [zone1, zone2, zone3, zone4].all validZoneHex then
      if 0 ≤ brightness ∧ brightness ≤ 100 then
        let v := zone1 ++ "," ++ zone2 ++ "," ++ zone3 ++ "," ++ zone4 ++ ","
                   ++ toString brightness
        let w := fs.write kbPerZonePath v
        (w.1, w.2, [.write kbPerZonePath v])
      else (false, fs, [])
    else (false, fs, [])
  else (false, fs, [])

/-- DAMXManager.get_four_zone_mode -/
def get_four_zone_mode (m : DAMXManager) (fs : FS) : String × FS × List FileOp :=
  if "four_zone_mode" ∈ m.availableFeatures then
    (fs.readStr kbFourZonePath, fs, [.read kbFourZonePath])
  else ("", fs, [])

/-- DAMXManager.set_four_zone_mode -/
def set_four_zone_mode (m : DAMXManager) (fs : FS)
    (mode speed brightness direction red green blue : Int) :
    Bool × FS × List FileOp :=
  if "four_zone_mode" ∈ m.availableFeatures then
    if 0 ≤ mode ∧ mode ≤ 7 then
      if 0 ≤ speed ∧ speed ≤ 9 then
        if 0 ≤ brightness ∧ brightness ≤ 100 then
          if direction = 1 ∨ direction = 2 then
            if 0 ≤ red ∧ red ≤ 255 ∧ 0 ≤ green ∧ green ≤ 255
                ∧ 0 ≤ blue ∧ blue ≤ 255 then
              let v := toString mode ++ "," ++ toString speed ++ ","
                ++ toString brightness ++ "," ++ toString direction ++ ","
                ++ toString red ++ "," ++ toString green ++ "," ++ toString blue
              let w := fs.write kbFourZonePath v
              (w.1, w.2, [.write kbFourZonePath v])
            else (false, fs, [])
          else (false, fs, [])
        else (false, fs, [])
      else (false, fs, [])
    else (false, fs, [])
  else (false, fs, [])

/-- DAMXManager.get_all_settings: the dictionary of all current settings,
with the same insertion order and conditional entries as the code. -/
def get_all_settings (m : DAMXManager) (fs : FS) : JVal × FS × List FileOp :=
  let base := [("laptop_type", JVal.str (ltName m.laptopType)),
               ("has_four_zone_kb", JVal.bool m.hasFourZoneKb),
               ("available_features", JVal.arr (m.availableFeatures.map JVal.str)),
               ("version", JVal.str VERSION)]
  let tp : List (String × JVal) × List FileOp :=
    if "thermal_profile" ∈ m.availableFeatures then
      ([("thermal_profile", JVal.obj
          [("current", JVal.str (get_thermal_profile m fs).1),
           ("available", JVal.arr ((get_thermal_profile_choices m fs).1.map JVal.str))])],
       (get_thermal_profile m fs).2.2 ++ (get_thermal_profile_choices m fs).2.2)
    else
      ([("thermal_profile", JVal.obj
          [("current", JVal.str ""), ("available", JVal.arr [])])], [])
  let bt : List (String × JVal) × List FileOp :=
    if "backlight_timeout" ∈ m.availableFeatures then
      ([("backlight_timeout", JVal.str (get_backlight_timeout m fs).1)],
       (get_backlight_timeout m fs).2.2)
    else ([], [])
  let bc : List (String × JVal) × List FileOp :=
    if "battery_calibration" ∈ m.availableFeatures then
      ([("battery_calibration", JVal.str (get_battery_calibration m fs).1)],
       (get_battery_calibration m fs).2.2)
    else ([], [])
  let bl : List (String × JVal) × List FileOp :=
    if "battery_limiter" ∈ m.availableFeatures then
      ([("battery_limiter", JVal.str (get_battery_limiter m fs).1)],
       (get_battery_limiter m fs).2.2)
    else ([], [])
  let bs : List (String × JVal) × List FileOp :=
    if "boot_animation_sound" ∈ m.availableFeatures then
      ([("boot_animation_sound", JVal.str (get_boot_animation_sound m fs).1)],
       (get_boot_animation_sound m fs).2.2)
    else ([], [])
  let fsp : List (String × JVal) × List FileOp :=
    if "fan_speed" ∈ m.availableFeatures then
      ([("fan_speed", JVal.obj
          [("cpu", JVal.str (get_fan_speed m fs).1.1),
           ("gpu", JVal.str (get_fan_speed m fs).1.2)])],
       (get_fan_speed m fs).2.2)
    else ([], [])
  let lo : List (String × JVal) × List FileOp :=
    if "lcd_override" ∈ m.availableFeatures then
      ([("lcd_override", JVal.str (get_lcd_override m fs).1)],
       (get_lcd_override m fs).2.2)
    else ([], [])
  let uc : List (String × JVal) × List FileOp :=
    if "usb_charging" ∈ m.availableFeatures then
      ([("usb_charging", JVal.str (get_usb_charging m fs).1)],
       (get_usb_charging m fs).2.2)
    else ([], [])
  let pz : List (String × JVal) × List FileOp :=
    if "per_zone_mode" ∈ m.availableFeatures then
      ([("per_zone_mode", JVal.str (get_per_zone_mode m fs).1)],
       (get_per_zone_mode m fs).2.2)
    else ([], [])
  let fz : List (String × JVal) × List FileOp :=
    if "four_zone_mode" ∈ m.availableFeatures then
      ([("four_zone_mode", JVal.str (get_four_zone_mode m fs).1)],
       (get_four_zone_mode m fs).2.2)
    else ([], [])
  (JVal.obj (base ++ tp.1 ++ bt.1 ++ bc.1 ++ bl.1 ++ bs.1 ++ fsp.1 ++ lo.1
             ++ uc.1 ++ pz.1 ++ fz.1),
   fs,
   tp.2 ++ bt.2 ++ bc.2 ++ bl.2 ++ bs.2 ++ fsp.2 ++ lo.2 ++ uc.2 ++ pz.2 ++ fz.2)

/-- DAMXManager._force_model_nitro, modelled by its external outcome. -/
def force_model_nitro (env : Env) : Bool := env.forceNitroOk

/-- DAMXManager._force_model_predator, modelled by its external outcome. -/
def force_model_predator (env : Env) : Bool := env.forcePredatorOk

/-- DAMXManager._force_enable_all, modelled by its external outcome. -/
def force_enable_all (env : Env) : Bool := env.forceEnableAllOk

/-- DAMXManager._restart_daemon, modelled by its external outcome. -/
def restart_daemon (env : Env) : Bool := env.restartDaemonOk

/-- DAMXManager._restart_drivers_and_daemon, modelled by its external
outcome. -/
def restart_drivers_and_daemon (env : Env) : Bool := env.restartDriversOk

/-- DaemonServer.process_command: the full command dispatch.  Each
hardware-touching branch checks FeatureSet membership first and returns the
fixed not-supported error without touching the filesystem. -/
def process_command (env : Env) (m : DAMXManager) (fs : FS)
    (command : String) (params : Params) : Response × FS × List FileOp :=
  if command = "get_all_settings" then
    let r := get_all_settings m fs
    ({ success := true, data := some r.1 }, r.2.1, r.2.2)
  else if command = "get_thermal_profile" then
    if "thermal_profile" ∉ m.availableFeatures then
      ({ success := false,
         error := some "Thermal profile is not supported on this device" }, fs, [])
    else
      let p := get_thermal_profile m fs
      let c := get_thermal_profile_choices m fs
      ({ success := true,
         data := some (JVal.obj
           [("current", JVal.str p.1),
            ("available", JVal.arr (c.1.map JVal.str))]) }, fs, p.2.2 ++ c.2.2)
  else if command = "set_thermal_profile" then
    if "thermal_profile" ∉ m.availableFeatures then
      ({ success := false,
         error := some "Thermal profile is not supported on this device" }, fs, [])
    else
      let profile := params.profile
      let r := set_thermal_profile m fs profile
      ({ success := r.1,
         data := if r.1 then some (JVal.obj [("profile", JVal.str profile)]) else none,
         error := if r.1 then none else some "Failed to set thermal profile" },
       r.2.1, r.2.2)
  else if command = "set_backlight_timeout" then
    if "backlight_timeout" ∉ m.availableFeatures then
      ({ success := false,
         error := some "Backlight timeout is not supported on this device" }, fs, [])
    else
      let enabled := params.enabled
      let r := set_backlight_timeout m fs enabled
      ({ success := r.1,
         data := if r.1 then some (JVal.obj [("enabled", JVal.bool enabled)]) else none,
         error := if r.1 then none else some "Failed to set backlight timeout" },
       r.2.1, r.2.2)
  else if command = "set_battery_calibration" then
    if "battery_calibration" ∉ m.availableFeatures then
      ({ success := false,
         error := some "Battery calibration is not supported on this device" }, fs, [])
    else
      let enabled := params.enabled
      let r := set_battery_calibration m fs enabled
      ({ success := r.1,
         data := if r.1 then some (JVal.obj [("enabled", JVal.bool enabled)]) else none,
         error := if r.1 then none else some "Failed to set battery calibration" },
       r.2.1, r.2.2)
  else if command = "set_battery_limiter" then
    if "battery_limiter" ∉ m.availableFeatures then
      ({ success := false,
         error := some "Battery limiter is not supported on this device" }, fs, [])
    else
      let enabled := params.enabled
      let r := set_battery_limiter m fs enabled
      ({ success := r.1,
         data := if r.1 then some (JVal.obj [("enabled", JVal.bool enabled)]) else none,
         error := if r.1 then none else some "Failed to set battery limiter" },
       r.2.1, r.2.2)
  else if command = "set_boot_animation_sound" then
    if "boot_animation_sound" ∉ m.availableFeatures then
      ({ success := false,
         error := some "Boot animation sound is not supported on this device" }, fs, [])
    else
      let enabled := params.enabled
      let r := set_boot_animation_sound m fs enabled
      ({ success := r.1,
         data := if r.1 then some (JVal.obj [("enabled", JVal.bool enabled)]) else none,
         error := if r.1 then none else some "Failed to set boot animation sound" },
       r.2.1, r.2.2)
  else if command = "set_fan_speed" then
    if "fan_speed" ∉ m.availableFeatures then
      ({ success := false,
         error := some "Fan speed control is not supported on this device" }, fs, [])
    else
      let cpu := params.cpu
      let gpu := params.gpu
      let r := set_fan_speed m fs cpu gpu
      ({ success := r.1,
         data := if r.1 then some (JVal.obj
           [("cpu", JVal.int cpu), ("gpu", JVal.int gpu)]) else none,
         error := if r.1 then none else some "Failed to set fan speed" },
       r.2.1, r.2.2)
  else if command = "set_lcd_override" then
    if "lcd_override" ∉ m.availableFeatures then
      ({ success := false,
         error := some "LCD override is not supported on this device" }, fs, [])
    else
      let enabled := params.enabled
      let r := set_lcd_override m fs enabled
      ({ success := r.1,
         data := if r.1 then some (JVal.obj [("enabled", JVal.bool enabled)]) else none,
         error := if r.1 then none else some "Failed to set LCD override" },
       r.2.1, r.2.2)
  else if command = "set_usb_charging" then
    if "usb_charging" ∉ m.availableFeatures then
      ({ success := false,
         error := some "USB charging control is not supported on this device" }, fs, [])
    else
      let level := params.level
      let r := set_usb_charging m fs level
      ({ success := r.1,
         data := if r.1 then some (JVal.obj [("level", JVal.int level)]) else none,
         error := if r.1 then none else some "Failed to set USB charging" },
       r.2.1, r.2.2)
  else if command = "set_per_zone_mode" then
    if "per_zone_mode" ∉ m.availableFeatures then
      ({ success := false,
         error := some "Per-zone keyboard mode is not supported on this device" }, fs, [])
    else
      let r := set_per_zone_mode m fs params.zone1 params.zone2 params.zone3
                 params.zone4 params.brightness
      ({ success := r.1,
         data := if r.1 then some (JVal.obj
           [("zone1", JVal.str params.zone1), ("zone2", JVal.str params.zone2),
            ("zone3", JVal.str params.zone3), ("zone4", JVal.str params.zone4),
            ("brightness", JVal.int params.brightness)]) else none,
         error := if r.1 then none else some "Failed to set per-zone mode" },
       r.2.1, r.2.2)
  else if command = "set_four_zone_mode" then
    if "four_zone_mode" ∉ m.availableFeatures then
      ({ success := false,
         error := some "Four-zone keyboard mode is not supported on this device" }, fs, [])
    else
      let r := set_four_zone_mode m fs params.mode params.speed params.brightness
                 params.direction params.red params.green params.blue
      ({ success := r.1,
         data := if r.1 then some (JVal.obj
           [("mode", JVal.int params.mode), ("speed", JVal.int params.speed),
            ("brightness", JVal.int params.brightness),
            ("direction", JVal.int params.direction),
            ("red", JVal.int params.red), ("green", JVal.int params.green),
            ("blue", JVal.int params.blue)]) else none,
         error := if r.1 then none else some "Failed to set four-zone mode" },
       r.2.1, r.2.2)
  else if command = "get_supported_features" then
    ({ success := true,
       data := some (JVal.obj
         [("available_features", JVal.arr (m.availableFeatures.map JVal.str)),
          ("laptop_type", JVal.str (ltName m.laptopType)),
          ("has_four_zone_kb", JVal.bool m.hasFourZoneKb)]) }, fs, [])
  else if command = "get_version" then
    ({ success := true,
       data := some (JVal.obj [("version", JVal.str VERSION)]) }, fs, [])
  else if command = "force_nitro_model" then
    if force_model_nitro env then
      ({ success := true,
         message := some "Successfully forced Nitro model into driver" }, fs, [])
    else
      ({ success := false,
         error := some "Failed to force Nitro model into driver" }, fs, [])
  else if command = "force_predator_model" then
    if force_model_predator env then
      ({ success := true,
         message := some "Successfully forced Predator model into driver" }, fs, [])
    else
      ({ success := false,
         error := some "Failed to force Predator model into driver (Model may not support it)" },
       fs, [])
  else if command = "force_enable_all" then
    if force_enable_all env then
      ({ success := true,
         message := some "Successfully forced all features into driver" }, fs, [])
    else
      ({ success := false,
         error := some "Failed to force all features into driver (Model may not support it)" },
       fs, [])
  else if command = "restart_daemon" then
    if restart_daemon env then
      ({ success := true,
         message := some "Successfully restarted DAMX daemon" }, fs, [])
    else
      ({ success := false,
         error := some "Failed to Restart DAMX daemon (Check logs for details)" }, fs, [])
  else if command = "restart_drivers_and_daemon" then
    if restart_drivers_and_daemon env then
      ({ success := true,
         message := some "Successfully restarted drivers and daemon" }, fs, [])
    else
      ({ success := false,
         error := some "Failed to restart drivers and daemon" }, fs, [])
  else
    ({ success := false, error := some ("Unknown command: " ++ command) }, fs, [])

/-- The fixed response DaemonServer.handle_client sends when the received
payload fails JSON parsing. -/
def invalidJsonResponse : Response :=
  { success := false, error := some "Invalid JSON format" }

/-- DaemonServer.handle_client, driven by the list of received payloads:
none models a recv that returns no data (peer closed); the list ending
models the running flag going false (server shutdown).  A payload that
fails to decode gets the fixed invalid-format response and the loop
continues with the next payload. -/
def handle_client (decode : String → Option (String × Params)) (env : Env)
    (m : DAMXManager) : FS → List (Option String) → List Response × FS
  | fs, [] => ([], fs)
  | _fs, none :: _ => ([], _fs)
  | fs, some msg :: rest =>
    match decode msg with
    | none =>
      let r := handle_client decode env m fs rest
      (invalidJsonResponse :: r.1, r.2)
    | some cp =>
      let p := process_command env m fs cp.1 cp.2
      let r := handle_client decode env m p.2.1 rest
      (p.1 :: r.1, r.2)

/-- The fixed feature universe of the specification. -/
def featureUniverse : List String :=
  ["thermal_profile", "backlight_timeout", "battery_calibration",
   "battery_limiter", "boot_animation_sound", "fan_speed", "lcd_override",
   "usb_charging", "per_zone_mode", "four_zone_mode"]

/-- The (feature, file) table of DAMXManager._detect_available_features;
feature name and file name coincide. -/
def featureFiles : List String :=
  ["backlight_timeout", "battery_calibration", "battery_limiter",
   "boot_animation_sound", "fan_speed", "lcd_override", "usb_charging"]

/-- DAMXManager._detect_laptop_type over an existence predicate on paths:
first match wins, predator before nitro. -/
def detectLaptopType (ex : String → Bool) : LaptopType :=
  if ex predatorPath = true then .PREDATOR
  else if ex nitroPath = true then .NITRO
  else .UNKNOWN

/-- DAMXManager._get_base_path -/
def getBasePath : LaptopType → String
  | .PREDATOR => predatorPath
  | .NITRO => nitroPath
  | .UNKNOWN => ""

/-- DAMXManager._check_four_zone_kb -/
def checkFourZoneKb (ex : String → Bool) (lt : LaptopType) : Bool :=
  if lt ≠ LaptopType.UNKNOWN then ex kbBase else false

/-- DAMXManager._detect_available_features, as the list of features added
in code order. -/
def detectAvailableFeatures (ex : String → Bool) (lt : LaptopType)
    (basePath : String) (hasKb : Bool) : List String :=
  (if ex platformProfilePath = true then ["thermal_profile"] else [])
  ++ (if lt ≠ LaptopType.UNKNOWN ∧ ex basePath = true then
        featureFiles.filter (fun f => ex (pyPathJoin basePath f))
      else [])
  ++ (if hasKb = true then
        (if ex (pyPathJoin kbBase "per_zone_mode") = true then ["per_zone_mode"] else [])
        ++ (if ex (pyPathJoin kbBase "four_zone_mode") = true then ["four_zone_mode"] else [])
      else [])

/-- The detection part of DAMXManager.__init__: laptop type, base path,
four-zone keyboard flag and the detected FeatureSet. -/
def initManager (ex : String → Bool) : DAMXManager :=
  let lt := detectLaptopType ex
  let bp := getBasePath lt
  let kb := checkFourZoneKb ex lt
  { laptopType := lt, basePath := bp, hasFourZoneKb := kb,
    availableFeatures := detectAvailableFeatures ex lt bp kb }

/-- DAMXManager.MAX_RESTART_ATTEMPTS -/
def MAX_RESTART_ATTEMPTS : Int := 20

/-- The persisted restart counter file /tmp/damx_restart_attempts, modelled
by the integer it holds (none = file absent; the code also treats
unreadable or unparsable content as 0, which coincides with none here, and
str/int round-trip on the values the daemon itself writes). -/
def getRestartAttempts (file : Option Int) : Int :=
  file.getD 0

/-- DAMXManager._increment_restart_attempts: read, add one, persist. -/
def incrementRestartAttempts (file : Option Int) : Int × Option Int :=
  let attempts := getRestartAttempts file + 1
  (attempts, some attempts)

/-- DAMXManager._reset_restart_attempts: remove the persisted file. -/
def resetRestartAttempts (_file : Option Int) : Option Int :=
  none

/-- Outcome of one startup pass of the self-healing supervisor. -/
inductive StartupOutcome where
  | restarting
  | degraded
  | exhausted
  | stable
deriving DecidableEq, Repr

/-- The supervisor logic of DAMXManager.__init__: on an Unknown model,
increment and restart while under the cap, otherwise give up; on a detected
model, reset the counter.  The returned Bool records whether the
driver/daemon restart sequence was invoked; restartOk is the outcome of
that external sequence. -/
def supervisorStartup (file : Option Int) (modelUnknown : Bool)
    (restartOk : Bool) : Option Int × StartupOutcome × Bool :=
  if modelUnknown then
    if getRestartAttempts file < MAX_RESTART_ATTEMPTS then
      let r := incrementRestartAttempts file
      (r.2, (if restartOk then StartupOutcome.restarting else StartupOutcome.degraded), true)
    else (file, .exhausted, false)
  else (resetRestartAttempts file, .stable, false)

/-- The persisted counter after a run of consecutive Unknown-model
startups, one restart outcome per startup. -/
def iterUnknownStartups (file : Option Int) (oks : List Bool) : Option Int :=
  oks.foldl (fun f ok => (supervisorStartup f true ok).1) file

/-- The battery-friendly profiles of PowerSourceDetector._handle_power_change. -/
def friendlyProfiles : List String :=
  ["balanced", "quiet", "power-saver"]

/-- PowerSourceDetector._handle_power_change: on any transition read the
current profile and choices; only on the transition to battery, and only
when the current profile is not battery-friendly, switch to the first of
balanced, quiet, power-saver present in the choices. -/
def handlePowerChange (m : DAMXManager) (fs : FS) (plugged : Bool) :
    FS × List FileOp :=
  if "thermal_profile" ∈ m.availableFeatures then
    let cur := get_thermal_profile m fs
    let av := get_thermal_profile_choices m fs
    let t0 := cur.2.2 ++ av.2.2
    if plugged then (fs, t0)
    else
      if cur.1 ∉ friendlyProfiles then
        if "balanced" ∈ av.1 then
          let r := set_thermal_profile m fs "balanced"
          (r.2.1, t0 ++ r.2.2)
        else if "quiet" ∈ av.1 then
          let r := set_thermal_profile m fs "quiet"
          (r.2.1, t0 ++ r.2.2)
        else if "power-saver" ∈ av.1 then
          let r := set_thermal_profile m fs "power-saver"
          (r.2.1, t0 ++ r.2.2)
        else (fs, t0)
      else (fs, t0)
  else (fs, [])

/-- PowerSourceDetector.check_power_source for one tick: the state is the
last observed value (none right after __init__), the input is the
AC-connected boolean of this tick; a differing value is a transition. -/
def checkStep (m : DAMXManager) (st : Option Bool) (fs : FS) (plugged : Bool) :
    Option Bool × FS × List FileOp :=
  if some plugged ≠ st then
    let h := handlePowerChange m fs plugged
    (some plugged, h.1, h.2)
  else (st, fs, [])

/-- The monitor driven by a list of per-tick AC-connected booleans,
returning the final state, final filesystem and per-tick operation lists. -/
def runMonitor (m : DAMXManager) : Option Bool → FS → List Bool →
    Option Bool × FS × List (List FileOp)
  | st, _fs, [] => (st, _fs, [])
  | st, fs, b :: bs =>
    let s := checkStep m st fs b
    let r := runMonitor m s.1 s.2.1 bs
    (r.1, r.2.1, s.2.2 :: r.2.2)

/-- First battery-friendly profile present in the choices, in the fixed
order the code tries them. -/
def pickBatteryProfile (choices : List String) : Option String :=
  if "balanced" ∈ choices then some "balanced"
  else if "quiet" ∈ choices then some "quiet"
  else if "power-saver" ∈ choices then some "power-saver"
  else none

/-- The write operations a transition-to-battery tick performs, as a
function of the filesystem it sees. -/
def expectedBatteryWrites (m : DAMXManager) (fs : FS) : List FileOp :=
  if "thermal_profile" ∈ m.availableFeatures
      ∧ fs.readStr platformProfilePath ∉ friendlyProfiles then
    match pickBatteryProfile (splitWhitespace (fs.readStr platformProfileChoicesPath)) with
    | some p => [FileOp.write platformProfilePath p]
    | none => []
  else []

/-- The get/set commands of process_command that are gated on a given
feature identifier. -/
def gatedCommandsFor (feat : String) : List String :=
  if feat = "thermal_profile" then ["get_thermal_profile", "set_thermal_profile"]
  else if feat = "backlight_timeout" then ["set_backlight_timeout"]
  else if feat = "battery_calibration" then ["set_battery_calibration"]
  else if feat = "battery_limiter" then ["set_battery_limiter"]
  else if feat = "boot_animation_sound" then ["set_boot_animation_sound"]
  else if feat = "fan_speed" then ["set_fan_speed"]
  else if feat = "lcd_override" then ["set_lcd_override"]
  else if feat = "usb_charging" then ["set_usb_charging"]
  else if feat = "per_zone_mode" then ["set_per_zone_mode"]
  else if feat = "four_zone_mode" then ["set_four_zone_mode"]
  else []

/-- The fixed error text each gated command returns when its feature is
absent. -/
def notSupportedError (cmd : String) : String :=
  if cmd = "get_thermal_profile" ∨ cmd = "set_thermal_profile" then
    "Thermal profile is not supported on this device"
  else if cmd = "set_backlight_timeout" then
    "Backlight timeout is not supported on this device"
  else if cmd = "set_battery_calibration" then
    "Battery calibration is not supported on this device"
  else if cmd = "set_battery_limiter" then
    "Battery limiter is not supported on this device"
  else if cmd = "set_boot_animation_sound" then
    "Boot animation sound is not supported on this device"
  else if cmd = "set_fan_speed" then
    "Fan speed control is not supported on this device"
  else if cmd = "set_lcd_override" then
    "LCD override is not supported on this device"
  else if cmd = "set_usb_charging" then
    "USB charging control is not supported on this device"
  else if cmd = "set_per_zone_mode" then
    "Per-zone keyboard mode is not supported on this device"
  else if cmd = "set_four_zone_mode" then
    "Four-zone keyboard mode is not supported on this device"
  else ""

/-- A concrete filesystem-existence predicate on which only the four-zone
keyboard marker, its per_zone_mode sub-file, and their ancestor directories
exist: neither sense path is present, so the model is Unknown. -/
def exKbOnly : String → Bool := fun p =>
  ["/sys", "/sys/module", "/sys/module/linuwu_sense",
   "/sys/module/linuwu_sense/drivers",
   "/sys/module/linuwu_sense/drivers/platform:acer-wmi",
   "/sys/module/linuwu_sense/drivers/platform:acer-wmi/acer-wmi",
   "/sys/module/linuwu_sense/drivers/platform:acer-wmi/acer-wmi/four_zoned_kb",
   "/sys/module/linuwu_sense/drivers/platform:acer-wmi/acer-wmi/four_zoned_kb/per_zone_mode"].contains p

/-- A concrete manager with only the per-zone keyboard feature, used for
evaluating the per-zone setter at concrete inputs. -/
def pzManager : DAMXManager :=
  { laptopType := .PREDATOR, basePath := predatorPath,
    hasFourZoneKb := true, availableFeatures := ["per_zone_mode"] }

/-- A concrete fully-writable filesystem with no readable files. -/
def emptyWritableFS : FS :=
  { contents := fun _ => none, writable := fun _ => true }

/-- A concrete manager with only the fan_speed feature. -/
def fanManager : DAMXManager :=
  { laptopType := .PREDATOR, basePath := predatorPath,
    hasFourZoneKb := false, availableFeatures := ["fan_speed"] }

/-- A concrete manager with only the thermal_profile feature. -/
def thermalManager : DAMXManager :=
  { laptopType := .PREDATOR, basePath := predatorPath,
    hasFourZoneKb := false, availableFeatures := ["thermal_profile"] }

/-- A concrete filesystem where the platform profile is performance and the
choices file lists performance, balanced and quiet; everything writable. -/
def thermalFS : FS :=
  { contents := fun p =>
      if p = platformProfilePath then some "performance"
      else if p = platformProfileChoicesPath then some "performance balanced quiet"
      else none,
    writable := fun _ => true }

/-- A concrete existence predicate with a predator sense directory, its
fan_speed file, and the platform profile file. -/
def exPredator : String → Bool := fun p =>
  [predatorPath, pyPathJoin predatorPath "fan_speed", platformProfilePath].contains p

/-- Claim C10: get_fan_speed distinguishes its failure modes non-uniformly:
with the fan_speed feature absent it returns the empty pair; with the
feature present, a failed read or a content containing no comma yields the
fallback pair of zero strings; it is a total function, so it never raises
to the caller. -/
theorem claim_C10 (m : DAMXManager) (fs : FS) :
    ("fan_speed" ∉ m.availableFeatures →
       get_fan_speed m fs = (("", ""), fs, []))
    ∧ ("fan_speed" ∈ m.availableFeatures →
        (fs.contents (pyPathJoin m.basePath "fan_speed") = none →
           get_fan_speed m fs
             = (("0", "0"), fs, [FileOp.read (pyPathJoin m.basePath "fan_speed")]))
        ∧ (∀ raw, fs.contents (pyPathJoin m.basePath "fan_speed") = some raw →
             (pyStripStr raw).data.contains ',' = false →
             get_fan_speed m fs
               = (("0", "0"), fs, [FileOp.read (pyPathJoin m.basePath "fan_speed")]))) := by
  refine ⟨fun h => ?_, fun h => ⟨fun hn => ?_, fun raw hr hc => ?_⟩⟩
  · simp [get_fan_speed, h]
  · simp [get_fan_speed, h, hn]
  · have hc2 : ',' ∉ (pyStripStr raw).data := by simpa using hc
    simp [get_fan_speed, h, hr, hc2]

/-- Witness for C10 at concrete inputs: a manager without the feature gives
the empty pair, and one with the feature over an unreadable file gives the
zero pair. -/
theorem witness_C10 :
    ("fan_speed" ∉ pzManager.availableFeatures
      ∧ get_fan_speed pzManager emptyWritableFS = (("", ""), emptyWritableFS, []))
    ∧ ("fan_speed" ∈ fanManager.availableFeatures
      ∧ get_fan_speed fanManager emptyWritableFS
          = (("0", "0"), emptyWritableFS,
             [FileOp.read (pyPathJoin fanManager.basePath "fan_speed")])) :=
  ⟨⟨by decide, (claim_C10 pzManager emptyWritableFS).1 (by decide)⟩,
   ⟨by decide, ((claim_C10 fanManager emptyWritableFS).2 (by decide)).1 rfl⟩⟩

/-- Claim C5: with the fan_speed feature present, set_fan_speed on any pair
with a component outside [0,100] fails with no write and an unchanged
filesystem; on any pair inside the range the single written value is the
string cpu,gpu. -/
theorem claim_C5 (m : DAMXManager) (fs : FS) (cpu gpu : Int)
    (hf : "fan_speed" ∈ m.availableFeatures) :
    (¬ (0 ≤ cpu ∧ cpu ≤ 100 ∧ 0 ≤ gpu ∧ gpu ≤ 100) →
       set_fan_speed m fs cpu gpu = (false, fs, []))
    ∧ ((0 ≤ cpu ∧ cpu ≤ 100 ∧ 0 ≤ gpu ∧ gpu ≤ 100) →
       (set_fan_speed m fs cpu gpu).2.2
         = [FileOp.write (pyPathJoin m.basePath "fan_speed")
             (toString cpu ++ "," ++ toString gpu)]) := by
  constructor
  · intro h
    simp [set_fan_speed, hf, h]
  · intro h
    simp [set_fan_speed, hf, h]

/-- Witness for C5 at concrete inputs: cpu 101 is rejected without a write,
and (50, 60) produces exactly the write of 50,60. -/
theorem witness_C5 :
    ("fan_speed" ∈ fanManager.availableFeatures
      ∧ ¬ ((0:Int) ≤ 101 ∧ (101:Int) ≤ 100 ∧ (0:Int) ≤ 0 ∧ (0:Int) ≤ 100)
      ∧ set_fan_speed fanManager emptyWritableFS 101 0 = (false, emptyWritableFS, []))
    ∧ (set_fan_speed fanManager emptyWritableFS 50 60).2.2
        = [FileOp.write (pyPathJoin fanManager.basePath "fan_speed")
            (toString (50:Int) ++ "," ++ toString (60:Int))] :=
  ⟨⟨by decide, by decide,
    (claim_C5 fanManager emptyWritableFS 101 0 (by decide)).1 (by decide)⟩,
   (claim_C5 fanManager emptyWritableFS 50 60 (by decide)).2 (by decide)⟩

theorem handlePowerChange_ac (m : DAMXManager) (fs : FS) :
    (handlePowerChange m fs true).1 = fs
    ∧ writesOf (handlePowerChange m fs true).2 = [] := by
  by_cases hT : "thermal_profile" ∈ m.availableFeatures
  · simp [handlePowerChange, hT, get_thermal_profile, get_thermal_profile_choices,
      writesOf, FileOp.isWriteOp]
  · simp [handlePowerChange, hT, writesOf]

theorem handlePowerChange_battery_writes (m : DAMXManager) (fs : FS) :
    writesOf (handlePowerChange m fs false).2 = expectedBatteryWrites m fs := by
  by_cases hT : "thermal_profile" ∈ m.availableFeatures
  · by_cases hfr : fs.readStr platformProfilePath ∈ friendlyProfiles
    · simp [handlePowerChange, expectedBatteryWrites, hT, hfr,
        get_thermal_profile, get_thermal_profile_choices, writesOf, FileOp.isWriteOp]
    · by_cases hb : "balanced" ∈ splitWhitespace (fs.readStr platformProfileChoicesPath)
      · simp [handlePowerChange, expectedBatteryWrites, hT, hfr, hb,
          get_thermal_profile, get_thermal_profile_choices, set_thermal_profile,
          pickBatteryProfile, writesOf, FileOp.isWriteOp, FS.write]
      · by_cases hq : "quiet" ∈ splitWhitespace (fs.readStr platformProfileChoicesPath)
        · simp [handlePowerChange, expectedBatteryWrites, hT, hfr, hb, hq,
            get_thermal_profile, get_thermal_profile_choices, set_thermal_profile,
            pickBatteryProfile, writesOf, FileOp.isWriteOp, FS.write]
        · by_cases hp : "power-saver" ∈ splitWhitespace (fs.readStr platformProfileChoicesPath)
          · simp [handlePowerChange, expectedBatteryWrites, hT, hfr, hb, hq, hp,
              get_thermal_profile, get_thermal_profile_choices, set_thermal_profile,
              pickBatteryProfile, writesOf, FileOp.isWriteOp, FS.write]
          · simp [handlePowerChange, expectedBatteryWrites, hT, hfr, hb, hq, hp,
              get_thermal_profile, get_thermal_profile_choices,
              pickBatteryProfile, writesOf, FileOp.isWriteOp]
  · simp [handlePowerChange, expectedBatteryWrites, hT, writesOf]

/-- Claim C9: the last-observed AC state starts as the none sentinel, which
is unequal to both booleans, so the first tick is always a transition: it
always updates the state to the observed boolean; on battery it performs
exactly the battery-policy writes (a switch when the current profile is not
battery-friendly and a battery-friendly choice exists), and on AC it
performs no write. -/
theorem claim_C9 (m : DAMXManager) (fs : FS) (b : Bool) :
    (checkStep m none fs b).1 = some b
    ∧ writesOf (checkStep m none fs b).2.2
        = (if b then [] else expectedBatteryWrites m fs) := by
  constructor
  · simp [checkStep]
  · cases b
    · simp [checkStep, handlePowerChange_battery_writes]
    · simp [checkStep, (handlePowerChange_ac m fs).2]

theorem writesOf_nil : writesOf [] = [] := rfl

theorem checkStep_same (m : DAMXManager) (v : Bool) (fs : FS) :
    checkStep m (some v) fs v = (some v, fs, []) := by
  simp [checkStep]

theorem runMonitor_replicate_same (m : DAMXManager) (v : Bool) (fs : FS) (n : Nat) :
    runMonitor m (some v) fs (List.replicate n v) = (some v, fs, List.replicate n []) := by
  induction n with
  | zero => simp [runMonitor]
  | succ k ih => simp [List.replicate_succ, runMonitor, checkStep_same, ih]

theorem runMonitor_append (m : DAMXManager) (st : Option Bool) (fs : FS)
    (xs ys : List Bool) :
    runMonitor m st fs (xs ++ ys)
      = ((runMonitor m (runMonitor m st fs xs).1 (runMonitor m st fs xs).2.1 ys).1,
         (runMonitor m (runMonitor m st fs xs).1 (runMonitor m st fs xs).2.1 ys).2.1,
         (runMonitor m st fs xs).2.2
           ++ (runMonitor m (runMonitor m st fs xs).1 (runMonitor m st fs xs).2.1 ys).2.2) := by
  induction xs generalizing st fs with
  | nil => simp [runMonitor]
  | cons x xs ih => simp [runMonitor, ih]

/-- Claim C3: driving the monitor, whose previously observed value is true,
with any AC sequence of the shape true^a false^b true^c (a, b at least 1),
the per-tick write lists show exactly one tick with writes, at the single
true-to-false edge (position a): there a write happens only if the current
profile is not battery-friendly, the profile written is the first of
balanced, quiet, power-saver present in the choices list, and none present
means no write; the false-to-true edge performs no write. -/
theorem claim_C3 (m : DAMXManager) (fs : FS) (a b c : Nat)
    (ha : 1 ≤ a) (hb : 1 ≤ b) :
    ((runMonitor m (some true) fs
        (List.replicate a true ++ List.replicate b false ++ List.replicate c true)).2.2).map
          writesOf
      = List.replicate a []
          ++ expectedBatteryWrites m fs :: List.replicate (b - 1 + c) [] := by
  obtain ⟨a1, rfl⟩ : ∃ k, a = k + 1 := ⟨a - 1, by omega⟩
  obtain ⟨b1, rfl⟩ : ∃ k, b = k + 1 := ⟨b - 1, by omega⟩
  rw [runMonitor_append, runMonitor_append, runMonitor_replicate_same]
  have hstep : checkStep m (some true) fs false
      = (some false, (handlePowerChange m fs false).1, (handlePowerChange m fs false).2) := by
    simp [checkStep]
  have hB : runMonitor m (some true) fs (List.replicate (b1 + 1) false)
      = (some false, (handlePowerChange m fs false).1,
         (handlePowerChange m fs false).2 :: List.replicate b1 []) := by
    rw [List.replicate_succ]
    simp [runMonitor, hstep, runMonitor_replicate_same]
  rw [hB]
  cases c with
  | zero =>
    simp [runMonitor, handlePowerChange_battery_writes, writesOf_nil]
  | succ c1 =>
    have hstep2 : ∀ fsx : FS, checkStep m (some false) fsx true
        = (some true, fsx, (handlePowerChange m fsx true).2) := by
      intro fsx
      simp [checkStep, (handlePowerChange_ac m fsx).1]
    rw [List.replicate_succ]
    simp [runMonitor, hstep2, runMonitor_replicate_same,
      handlePowerChange_battery_writes, (handlePowerChange_ac _ _).2,
      List.replicate_succ, List.replicate_add, writesOf_nil]

/-- Witness for C3: the concrete simulated sequence true,true,false,false,
true of the specification, on a concrete manager and filesystem whose
current profile is performance and whose choices contain balanced. -/
theorem witness_C3 :
    ((1:Nat) ≤ 2 ∧ (1:Nat) ≤ 2)
    ∧ ((runMonitor thermalManager (some true) thermalFS
          (List.replicate 2 true ++ List.replicate 2 false ++ List.replicate 1 true)).2.2).map
            writesOf
        = List.replicate 2 []
            ++ expectedBatteryWrites thermalManager thermalFS
               :: List.replicate (2 - 1 + 1) [] :=
  ⟨⟨by decide, by decide⟩,
   claim_C3 thermalManager thermalFS 2 2 1 (by decide) (by decide)⟩

theorem iterUnknownStartups_from_some (oks : List Bool) :
    ∀ cval : Int, 0 ≤ cval → cval ≤ 20 →
      getRestartAttempts (iterUnknownStartups (some cval) oks)
        = min (cval + oks.length) 20 := by
  induction oks with
  | nil =>
    intro cval h0 h20
    simp [iterUnknownStartups, getRestartAttempts]
    omega
  | cons ok rest ih =>
    intro cval h0 h20
    by_cases hc : cval < 20
    · have hstep : iterUnknownStartups (some cval) (ok :: rest)
          = iterUnknownStartups (some (cval + 1)) rest := by
        simp [iterUnknownStartups, supervisorStartup, incrementRestartAttempts,
          getRestartAttempts, MAX_RESTART_ATTEMPTS, hc]
      rw [hstep, ih (cval + 1) (by omega) (by omega)]
      simp only [List.length_cons]
      push_cast
      omega
    · have hstep : iterUnknownStartups (some cval) (ok :: rest)
          = iterUnknownStartups (some cval) rest := by
        simp [iterUnknownStartups, supervisorStartup, getRestartAttempts,
          MAX_RESTART_ATTEMPTS, hc]
      rw [hstep, ih cval h0 h20]
      simp only [List.length_cons]
      push_cast
      omega

/-- Claim C2: the persisted restart counter starts at 0 (absent file); after
any run of N consecutive Unknown-model startups it equals min(N, 20); at 20
a further Unknown detection leaves the state untouched, reports Exhausted
and does not invoke the restart sequence; a detected model resets by
removing the persisted file, so the counter reads 0; and the supervisor
transitions preserve 0 at most counter at most 20. -/
theorem claim_C2 :
    (∀ oks : List Bool,
        getRestartAttempts (iterUnknownStartups none oks)
          = min ((oks.length : Int)) 20)
    ∧ (∀ (file : Option Int) (ok : Bool), getRestartAttempts file = 20 →
        supervisorStartup file true ok = (file, .exhausted, false))
    ∧ (∀ (file : Option Int) (ok : Bool),
        supervisorStartup file false ok = (none, .stable, false)
        ∧ getRestartAttempts (supervisorStartup file false ok).1 = 0)
    ∧ getRestartAttempts none = 0
    ∧ (∀ (file : Option Int) (u ok : Bool),
        0 ≤ getRestartAttempts file → getRestartAttempts file ≤ 20 →
        0 ≤ getRestartAttempts (supervisorStartup file u ok).1
          ∧ getRestartAttempts (supervisorStartup file u ok).1 ≤ 20) := by
  refine ⟨?_, ?_, ?_, rfl, ?_⟩
  · intro oks
    cases oks with
    | nil => simp [iterUnknownStartups, getRestartAttempts]
    | cons ok rest =>
      have hstep : iterUnknownStartups none (ok :: rest)
          = iterUnknownStartups (some 1) rest := by
        simp [iterUnknownStartups, supervisorStartup, incrementRestartAttempts,
          getRestartAttempts, MAX_RESTART_ATTEMPTS]
      rw [hstep, iterUnknownStartups_from_some rest 1 (by omega) (by omega)]
      simp only [List.length_cons]
      push_cast
      omega
  · intro file ok h
    simp [supervisorStartup, h, MAX_RESTART_ATTEMPTS]
  · intro file ok
    constructor
    · simp [supervisorStartup, resetRestartAttempts]
    · simp [supervisorStartup, resetRestartAttempts, getRestartAttempts]
  · intro file u ok h0 h20
    cases u with
    | false =>
      simp [supervisorStartup, resetRestartAttempts, getRestartAttempts]
    | true =>
      simp only [getRestartAttempts] at h0 h20
      by_cases hc : file.getD 0 < (20 : Int)
      · simp [supervisorStartup, incrementRestartAttempts, getRestartAttempts,
          MAX_RESTART_ATTEMPTS, hc]
        omega
      · simp [supervisorStartup, getRestartAttempts, MAX_RESTART_ATTEMPTS, hc]
        omega

/-- Witness for C2: twenty-five consecutive Unknown startups cap the
counter at 20; at 20 the supervisor is Exhausted without invoking a
restart; a detected model resets to an absent file; and one transition from
5 stays within the bounds. -/
theorem witness_C2 :
    getRestartAttempts (iterUnknownStartups none (List.replicate 25 true))
        = min (((List.replicate 25 true).length : Int)) 20
    ∧ supervisorStartup (some 20) true true = (some 20, .exhausted, false)
    ∧ supervisorStartup (some 7) false true = (none, .stable, false)
    ∧ (0 ≤ getRestartAttempts (supervisorStartup (some 5) true true).1
        ∧ getRestartAttempts (supervisorStartup (some 5) true true).1 ≤ 20) :=
  ⟨claim_C2.1 (List.replicate 25 true),
   claim_C2.2.1 (some 20) true (by decide),
   (claim_C2.2.2.1 (some 7) true).1,
   claim_C2.2.2.2.2 (some 5) true true (by decide) (by decide)⟩

/-- Claim C1: for every feature of the fixed universe and every
corresponding get/set command, dispatching the command while the feature is
not a member of the detected FeatureSet returns success false with the
fixed not-supported-on-this-device error for that command, leaves the
filesystem unchanged, and attempts no virtual-file read or write. -/
theorem claim_C1 (env : Env) (m : DAMXManager) (fs : FS) (params : Params)
    (feat cmd : String) (hfeat : feat ∈ featureUniverse)
    (hcmd : cmd ∈ gatedCommandsFor feat)
    (habs : feat ∉ m.availableFeatures) :
    process_command env m fs cmd params
      = ({ success := false, error := some (notSupportedError cmd) }, fs, [])
    ∧ List.isSuffixOf "not supported on this device".data (notSupportedError cmd).data
        = true := by
  simp only [featureUniverse, List.mem_cons, List.mem_singleton,
    List.not_mem_nil, or_false] at hfeat
  rcases hfeat with rfl | hfeat
  · simp [gatedCommandsFor] at hcmd
    rcases hcmd with rfl | rfl
    · exact ⟨by simp [process_command, notSupportedError, habs], by decide⟩
    · exact ⟨by simp [process_command, notSupportedError, habs], by decide⟩
  · rcases hfeat with rfl | rfl | rfl | rfl | rfl | rfl | rfl | rfl | rfl <;>
    · simp [gatedCommandsFor] at hcmd
      subst hcmd
      exact ⟨by simp [process_command, notSupportedError, habs], by decide⟩

/-- Witness for C1: dispatching set_fan_speed on a manager whose FeatureSet
holds only thermal_profile yields the fixed not-supported error with no
file operation. -/
theorem witness_C1 :
    ("fan_speed" ∈ featureUniverse
      ∧ "set_fan_speed" ∈ gatedCommandsFor "fan_speed"
      ∧ "fan_speed" ∉ thermalManager.availableFeatures)
    ∧ process_command {} thermalManager emptyWritableFS "set_fan_speed" {}
        = ({ success := false, error := some (notSupportedError "set_fan_speed") },
           emptyWritableFS, []) :=
  ⟨⟨by decide, by decide, by decide⟩,
   (claim_C1 {} thermalManager emptyWritableFS {} "fan_speed" "set_fan_speed"
      (by decide) (by decide) (by decide)).1⟩

/-- Claim C4: with thermal_profile in the FeatureSet, dispatching
set_thermal_profile with profile balanced present in the driver-reported
choices and a succeeding write yields exactly success true with data
profile balanced (and no error or message); the same request with profile
nonexistent absent from the choices yields exactly success false with the
fixed failure error, the filesystem unchanged and only the choices read,
no write, performed. -/
theorem claim_C4 (env : Env) (m : DAMXManager) (fs : FS)
    (hT : "thermal_profile" ∈ m.availableFeatures)
    (hbal : "balanced" ∈ splitWhitespace (fs.readStr platformProfileChoicesPath))
    (hw : fs.writable platformProfilePath = true)
    (hnon : "nonexistent" ∉ splitWhitespace (fs.readStr platformProfileChoicesPath)) :
    (process_command env m fs "set_thermal_profile" { profile := "balanced" }).1
      = { success := true,
          data := some (JVal.obj [("profile", JVal.str "balanced")]) }
    ∧ process_command env m fs "set_thermal_profile" { profile := "nonexistent" }
      = ({ success := false, error := some "Failed to set thermal profile" }, fs,
         [FileOp.read platformProfileChoicesPath]) := by
  constructor
  · simp [process_command, set_thermal_profile, get_thermal_profile_choices,
      hT, hbal, hw, FS.write]
  · simp [process_command, set_thermal_profile, get_thermal_profile_choices,
      hT, hnon]

/-- Witness for C4 at a concrete manager and filesystem whose choices file
holds performance balanced quiet and is writable. -/
theorem witness_C4 :
    ("thermal_profile" ∈ thermalManager.availableFeatures
      ∧ "balanced" ∈ splitWhitespace (thermalFS.readStr platformProfileChoicesPath)
      ∧ thermalFS.writable platformProfilePath = true
      ∧ "nonexistent" ∉ splitWhitespace (thermalFS.readStr platformProfileChoicesPath))
    ∧ (process_command {} thermalManager thermalFS "set_thermal_profile"
         { profile := "balanced" }).1
        = { success := true,
            data := some (JVal.obj [("profile", JVal.str "balanced")]) }
    ∧ process_command {} thermalManager thermalFS "set_thermal_profile"
         { profile := "nonexistent" }
        = ({ success := false, error := some "Failed to set thermal profile" },
           thermalFS, [FileOp.read platformProfileChoicesPath]) :=
  ⟨⟨by decide, by decide, rfl, by decide⟩,
   (claim_C4 {} thermalManager thermalFS (by decide) (by decide) rfl (by decide)).1,
   (claim_C4 {} thermalManager thermalFS (by decide) (by decide) rfl (by decide)).2⟩

/-- Claim C8: a received payload that fails JSON decoding gets exactly the
fixed invalid-format response and the connection stays open: the remaining
payloads are served as if the bad one had not occurred; and the handler
loop exits only at a peer close (a none read) or at shutdown (end of the
input list): while every read yields data, every request is answered. -/
theorem claim_C8 (decode : String → Option (String × Params)) (env : Env)
    (m : DAMXManager) (fs : FS) (msg : String) (rest : List (Option String))
    (hbad : decode msg = none) :
    (handle_client decode env m fs (some msg :: rest)).1
        = invalidJsonResponse :: (handle_client decode env m fs rest).1
    ∧ (handle_client decode env m fs (some msg :: rest)).2
        = (handle_client decode env m fs rest).2
    ∧ invalidJsonResponse
        = { success := false, data := none,
            error := some "Invalid JSON format", message := none }
    ∧ (∀ (fs2 : FS) (inputs : List (Option String)),
        (∀ x ∈ inputs, x ≠ none) →
        (handle_client decode env m fs2 inputs).1.length = inputs.length) := by
  refine ⟨?_, ?_, rfl, ?_⟩
  · simp [handle_client, hbad]
  · simp [handle_client, hbad]
  · intro fs2 inputs
    induction inputs generalizing fs2 with
    | nil => simp [handle_client]
    | cons x xs ih =>
      intro hx
      have hxs : ∀ y ∈ xs, y ≠ none := fun y hy => hx y (List.mem_cons_of_mem x hy)
      obtain ⟨mm, rfl⟩ : ∃ mm, x = some mm := by
        cases x with
        | none => exact absurd rfl (hx none (List.mem_cons_self none xs))
        | some mm => exact ⟨mm, rfl⟩
      cases hd : decode mm with
      | none => simp [handle_client, hd, ih fs2 hxs]
      | some cp => simp [handle_client, hd, ih _ hxs]

/-- Witness for C8: a decoder that rejects everything sends the fixed
invalid-format response for the payload x and keeps serving the rest. -/
theorem witness_C8 :
    ((fun _ : String => (none : Option (String × Params))) "x" = none)
    ∧ (handle_client (fun _ => none) {} thermalManager emptyWritableFS
         [some "x", some "y"]).1
        = invalidJsonResponse
            :: (handle_client (fun _ => none) {} thermalManager emptyWritableFS
                 [some "y"]).1
    ∧ (handle_client (fun _ => none) {} thermalManager emptyWritableFS
         [some "x", some "y"]).1.length = 2 :=
  ⟨rfl,
   (claim_C8 (fun _ => none) {} thermalManager emptyWritableFS "x" [some "y"] rfl).1,
   (claim_C8 (fun _ => none) {} thermalManager emptyWritableFS "x" [some "y"] rfl).2.2.2
     emptyWritableFS [some "x", some "y"] (by simp)⟩

theorem hexDigit_not_space (c : Char) (h : isHexDigitChar c = true) :
    isPySpace c = false := by
  cases hh : isPySpace c
  · rfl
  · exfalso
    simp only [isPySpace, Bool.or_eq_true, beq_iff_eq] at hh
    rcases hh with ((((rfl | rfl) | rfl) | rfl) | rfl) | rfl <;>
      exact absurd h (by decide)

theorem hexDigitValue_isSome (c : Char) (h : isHexDigitChar c = true) :
    (hexDigitValue c).isSome = true := by
  simp only [isHexDigitChar, Bool.or_eq_true, Bool.and_eq_true,
    decide_eq_true_eq] at h
  unfold hexDigitValue
  rcases h with (⟨h1, h2⟩ | ⟨h1, h2⟩) | ⟨h1, h2⟩
  · rw [if_pos ⟨h1, h2⟩]
    rfl
  · rw [if_neg (by omega), if_pos ⟨h1, h2⟩]
    rfl
  · rw [if_neg (by omega), if_neg (by omega), if_pos ⟨h1, h2⟩]
    rfl

theorem pyTransformChar_of_hex (c : Char) (h : isHexDigitChar c = true) :
    pyTransformChar c = c := by
  simp only [isHexDigitChar, Bool.or_eq_true, Bool.and_eq_true,
    decide_eq_true_eq] at h
  have hlt : c.toNat < 127 := by
    rcases h with (⟨h1, h2⟩ | ⟨h1, h2⟩) | ⟨h1, h2⟩ <;> omega
  simp [pyTransformChar, hlt]

theorem pyTransform_of_allHex (l : List Char)
    (h : l.all isHexDigitChar = true) : l.map pyTransformChar = l := by
  induction l with
  | nil => rfl
  | cons c cs ih =>
    simp only [List.all_cons, Bool.and_eq_true] at h
    simp [pyTransformChar_of_hex c h.1, ih h.2]

theorem hexTail_all (cs : List Char) : ∀ acc : Nat,
    cs.all isHexDigitChar = true → (hexTail acc cs).isSome = true := by
  induction cs with
  | nil =>
    intro acc _
    simp [hexTail]
  | cons c cs ih =>
    intro acc h
    simp only [List.all_cons, Bool.and_eq_true] at h
    have hu : c ≠ '_' := fun hc => absurd (hc ▸ h.1) (by decide)
    have hv := hexDigitValue_isSome c h.1
    rw [hexTail.eq_def]
    simp only []
    rw [if_neg hu]
    cases hval : hexDigitValue c with
    | none =>
      rw [hval] at hv
      simp at hv
    | some v =>
      exact ih _ h.2

theorem hexDigitsRun_all (cs : List Char) (hne : cs ≠ [])
    (h : cs.all isHexDigitChar = true) : (hexDigitsRun cs).isSome = true := by
  cases cs with
  | nil => exact absurd rfl hne
  | cons c cs =>
    simp only [List.all_cons, Bool.and_eq_true] at h
    have hv := hexDigitValue_isSome c h.1
    cases hval : hexDigitValue c with
    | none =>
      rw [hval] at hv
      simp at hv
    | some v =>
      simp only [hexDigitsRun]
      rw [hval]
      exact hexTail_all cs v h.2

theorem dropWhile_pySpace_of_allHex (l : List Char)
    (h : l.all isHexDigitChar = true) : l.dropWhile isPySpace = l := by
  cases l with
  | nil => rfl
  | cons c cs =>
    simp only [List.all_cons, Bool.and_eq_true] at h
    simp [List.dropWhile_cons, hexDigit_not_space c h.1]

theorem pyStrip_of_allHex (l : List Char) (h : l.all isHexDigitChar = true) :
    pyStrip l = l := by
  unfold pyStrip
  rw [dropWhile_pySpace_of_allHex l h,
    dropWhile_pySpace_of_allHex l.reverse (by simpa using h), List.reverse_reverse]

theorem stripSign_of_allHex (l : List Char) (h : l.all isHexDigitChar = true) :
    stripSign l = (1, l) := by
  cases l with
  | nil => rfl
  | cons c cs =>
    simp only [List.all_cons, Bool.and_eq_true] at h
    have h1 : c ≠ '+' := fun hc => absurd (hc ▸ h.1) (by decide)
    have h2 : c ≠ '-' := fun hc => absurd (hc ▸ h.1) (by decide)
    simp [stripSign, h1, h2]

theorem stripHexPrefix_of_allHex (l : List Char)
    (h : l.all isHexDigitChar = true) : stripHexPrefix l = l := by
  cases l with
  | nil => rfl
  | cons c0 t =>
    cases t with
    | nil => rfl
    | cons c1 r =>
      simp only [List.all_cons, Bool.and_eq_true] at h
      have hx : c1 ≠ 'x' := fun hc => absurd (hc ▸ h.2.1) (by decide)
      have hX : c1 ≠ 'X' := fun hc => absurd (hc ▸ h.2.1) (by decide)
      simp [stripHexPrefix, hx, hX]

theorem pyIntBase16_of_allHex (z : String) (hne : z.data ≠ [])
    (h : z.data.all isHexDigitChar = true) : (pyIntBase16 z).isSome = true := by
  have key := hexDigitsRun_all z.data hne h
  cases hv : hexDigitsRun z.data with
  | none =>
    rw [hv] at key
    simp at key
  | some v =>
    simp [pyIntBase16, pyTransform_of_allHex _ h, pyStrip_of_allHex _ h,
      stripSign_of_allHex _ h, stripHexPrefix_of_allHex _ h, hv]

theorem validZoneHex_of_sixHex (z : String) (h : isSixHexDigits z = true) :
    validZoneHex z = true := by
  simp only [isSixHexDigits, Bool.and_eq_true, beq_iff_eq] at h
  have hne : z.data ≠ [] := by
    intro hd
    rw [show z.length = z.data.length from rfl, hd] at h
    simp at h
  simp only [validZoneHex, Bool.and_eq_true, beq_iff_eq]
  exact ⟨pyIntBase16_of_allHex z hne h.2, h.1⟩

/-- Claim C6 as amended: set_per_zone_mode (feature present) fails with no
write at all unless every zone string passes the validation the code
performs, which is Python int(zone, 16) succeeding and the string having
length 6 (so besides plain 6-digit hex it also accepts length-6 forms such
as 0x1234, signed, underscored or whitespace-padded strings, and strings
using non-ASCII Unicode whitespace or Unicode decimal digits, which
CPython transforms to ASCII before parsing), and brightness lies in
[0,100]; when everything passes a single combined value is written.  Every
string of exactly six hexadecimal digits does pass the validation. -/
theorem claim_C6 (m : DAMXManager) (fs : FS) (z1 z2 z3 z4 : String)
    (bright : Int) (hf : "per_zone_mode" ∈ m.availableFeatures) :
    (¬ (([z1, z2, z3, z4].all validZoneHex) = true ∧ 0 ≤ bright ∧ bright ≤ 100) →
       set_per_zone_mode m fs z1 z2 z3 z4 bright = (false, fs, []))
    ∧ ((([z1, z2, z3, z4].all validZoneHex) = true ∧ 0 ≤ bright ∧ bright ≤ 100) →
       (set_per_zone_mode m fs z1 z2 z3 z4 bright).2.2
         = [FileOp.write kbPerZonePath
             (z1 ++ "," ++ z2 ++ "," ++ z3 ++ "," ++ z4 ++ "," ++ toString bright)])
    ∧ (∀ z, isSixHexDigits z = true → validZoneHex z = true) := by
  refine ⟨?_, ?_, fun z hz => validZoneHex_of_sixHex z hz⟩
  · intro h
    by_cases hall : ([z1, z2, z3, z4].all validZoneHex) = true
    · have hbr : ¬ (0 ≤ bright ∧ bright ≤ 100) := fun hb => h ⟨hall, hb⟩
      simp [set_per_zone_mode, hf, hall, hbr]
    · simp [set_per_zone_mode, hf, hall]
  · intro h
    simp [set_per_zone_mode, hf, h.1, h.2.1, h.2.2]

/-- Counterexample to C6 as stated: the string 0x1234 is not six
hexadecimal digits, yet with the feature present the setter succeeds and
performs the combined write, because Python int(zone, 16) accepts the 0x
prefix and the length check only counts characters. -/
theorem counterexample_C6 :
    isSixHexDigits "0x1234" = false
    ∧ (set_per_zone_mode pzManager emptyWritableFS
         "0x1234" "aabbcc" "aabbcc" "aabbcc" 50).1 = true
    ∧ (set_per_zone_mode pzManager emptyWritableFS
         "0x1234" "aabbcc" "aabbcc" "aabbcc" 50).2.2
        = [FileOp.write kbPerZonePath "0x1234,aabbcc,aabbcc,aabbcc,50"] :=
  ⟨by decide, by decide, by decide⟩

/-- Witness for C6 at concrete inputs: four plain hex zones and brightness
50 produce the single combined write. -/
theorem witness_C6 :
    ("per_zone_mode" ∈ pzManager.availableFeatures
      ∧ ([("aabbcc" : String), "aabbcc", "aabbcc", "aabbcc"].all validZoneHex)
          = true
      ∧ (0 : Int) ≤ 50 ∧ (50 : Int) ≤ 100)
    ∧ (set_per_zone_mode pzManager emptyWritableFS
         "aabbcc" "aabbcc" "aabbcc" "aabbcc" 50).2.2
        = [FileOp.write kbPerZonePath
            ("aabbcc" ++ "," ++ "aabbcc" ++ "," ++ "aabbcc" ++ "," ++ "aabbcc"
              ++ "," ++ toString (50 : Int))] :=
  ⟨⟨by decide, by decide, by decide, by decide⟩,
   (claim_C6 pzManager emptyWritableFS "aabbcc" "aabbcc" "aabbcc" "aabbcc" 50
      (by decide)).2.1 ⟨by decide, by decide, by decide⟩⟩

theorem mem_detectAvailableFeatures (ex : String → Bool) (lt : LaptopType)
    (bp : String) (kb : Bool) (f : String) :
    f ∈ detectAvailableFeatures ex lt bp kb ↔
      (f = "thermal_profile" ∧ ex platformProfilePath = true)
      ∨ (f ∈ featureFiles ∧ lt ≠ LaptopType.UNKNOWN ∧ ex bp = true
          ∧ ex (pyPathJoin bp f) = true)
      ∨ (f = "per_zone_mode" ∧ kb = true
          ∧ ex (pyPathJoin kbBase "per_zone_mode") = true)
      ∨ (f = "four_zone_mode" ∧ kb = true
          ∧ ex (pyPathJoin kbBase "four_zone_mode") = true) := by
  unfold detectAvailableFeatures
  split_ifs with h1 h2 h3 h4 h5 <;>
    simp_all [List.mem_append, List.mem_filter] <;> aesop

theorem detectAvailableFeatures_subset (ex : String → Bool) (lt : LaptopType)
    (bp : String) (kb : Bool) (f : String)
    (hf : f ∈ detectAvailableFeatures ex lt bp kb) : f ∈ featureUniverse := by
  rw [mem_detectAvailableFeatures] at hf
  rcases hf with ⟨rfl, -⟩ | ⟨hmem, -⟩ | ⟨rfl, -⟩ | ⟨rfl, -⟩
  · decide
  · fin_cases hmem <;> decide
  · decide
  · decide

/-- Claim C7 as amended: model detection is deterministic first-match-wins
(predator before nitro, else Unknown); thermal_profile is detected iff the
platform-profile file exists, independent of the model; each other
non-keyboard feature is detected iff the model is not Unknown and its file
exists under the base path; each keyboard-lighting feature is detected iff
the model is not Unknown AND the four-zone marker path exists AND the
corresponding sub-file exists (the model condition is the amendment); and
the FeatureSet is always a subset of the fixed ten-element universe. -/
theorem claim_C7 (ex : String → Bool) :
    ((ex predatorPath = true → (initManager ex).laptopType = LaptopType.PREDATOR)
     ∧ (ex predatorPath = false → ex nitroPath = true →
         (initManager ex).laptopType = LaptopType.NITRO)
     ∧ (ex predatorPath = false → ex nitroPath = false →
         (initManager ex).laptopType = LaptopType.UNKNOWN))
    ∧ ("thermal_profile" ∈ (initManager ex).availableFeatures
        ↔ ex platformProfilePath = true)
    ∧ (∀ f ∈ featureFiles,
        (f ∈ (initManager ex).availableFeatures
          ↔ ((initManager ex).laptopType ≠ LaptopType.UNKNOWN
             ∧ ex (pyPathJoin (initManager ex).basePath f) = true)))
    ∧ (∀ f ∈ (["per_zone_mode", "four_zone_mode"] : List String),
        (f ∈ (initManager ex).availableFeatures
          ↔ ((initManager ex).laptopType ≠ LaptopType.UNKNOWN
             ∧ ex kbBase = true ∧ ex (pyPathJoin kbBase f) = true)))
    ∧ (∀ f ∈ (initManager ex).availableFeatures, f ∈ featureUniverse) := by
  refine ⟨⟨?_, ?_, ?_⟩, ?_, ?_, ?_, ?_⟩
  · intro hp
    simp [initManager, detectLaptopType, hp]
  · intro hp hn
    simp [initManager, detectLaptopType, hp, hn]
  · intro hp hn
    simp [initManager, detectLaptopType, hp, hn]
  · by_cases hp : ex predatorPath = true
    · simp [initManager, detectLaptopType, getBasePath, checkFourZoneKb, hp,
        mem_detectAvailableFeatures, featureFiles]
    · by_cases hn : ex nitroPath = true
      · simp [initManager, detectLaptopType, getBasePath, checkFourZoneKb,
          hp, hn, mem_detectAvailableFeatures, featureFiles]
      · simp [initManager, detectLaptopType, getBasePath, checkFourZoneKb,
          hp, hn, mem_detectAvailableFeatures, featureFiles]
  · intro f hf
    fin_cases hf <;>
    · by_cases hp : ex predatorPath = true
      · simp [initManager, detectLaptopType, getBasePath, checkFourZoneKb, hp,
          mem_detectAvailableFeatures, featureFiles]
      · by_cases hn : ex nitroPath = true
        · simp [initManager, detectLaptopType, getBasePath, checkFourZoneKb,
            hp, hn, mem_detectAvailableFeatures, featureFiles]
        · simp [initManager, detectLaptopType, getBasePath, checkFourZoneKb,
            hp, hn, mem_detectAvailableFeatures, featureFiles]
  · intro f hf
    fin_cases hf <;>
    · by_cases hp : ex predatorPath = true
      · simp [initManager, detectLaptopType, getBasePath, checkFourZoneKb, hp,
          mem_detectAvailableFeatures, featureFiles]
      · by_cases hn : ex nitroPath = true
        · simp [initManager, detectLaptopType, getBasePath, checkFourZoneKb,
            hp, hn, mem_detectAvailableFeatures, featureFiles]
        · simp [initManager, detectLaptopType, getBasePath, checkFourZoneKb,
            hp, hn, mem_detectAvailableFeatures, featureFiles]
  · exact fun f hf => detectAvailableFeatures_subset ex _ _ _ f hf

/-- Counterexample to C7 as stated: on a filesystem where the four-zone
keyboard marker and its per_zone_mode sub-file exist but neither sense path
does, the model is Unknown and the code does not include per_zone_mode,
although the claim requires inclusion whenever marker and sub-file exist. -/
theorem counterexample_C7 :
    exKbOnly kbBase = true
    ∧ exKbOnly (pyPathJoin kbBase "per_zone_mode") = true
    ∧ "per_zone_mode" ∉ (initManager exKbOnly).availableFeatures :=
  ⟨by decide, by decide, by decide⟩

/-- Witness for C7 at a concrete predator-like existence predicate. -/
theorem witness_C7 :
    exPredator predatorPath = true
    ∧ (initManager exPredator).laptopType = LaptopType.PREDATOR
    ∧ "fan_speed" ∈ featureFiles
    ∧ ("fan_speed" ∈ (initManager exPredator).availableFeatures
        ↔ ((initManager exPredator).laptopType ≠ LaptopType.UNKNOWN
           ∧ exPredator (pyPathJoin (initManager exPredator).basePath "fan_speed")
               = true)) :=
  ⟨by decide, (claim_C7 exPredator).1.1 (by decide), by decide,
   (claim_C7 exPredator).2.2.1 "fan_speed" (by decide)⟩
